import Mathlib

/-!
Verification of the process-isolation harness in `main.py` of the
PyMuPDF-performance repository.

The central function is `multiprocessing_run(fn, timeout, cprofile)`: it
spawns a worker process that runs `fn()` inside the wrapper `fn2`, pickles
the outcome to a temporary file, joins the worker with a timeout, and
classifies the outcome into the quadruple `(t, e, ret, ee)`.  The
`performance` driver loop then builds a report entry
`dict(testname=..., path=..., toolname=..., t=t, e=ee)` from that quadruple.

The embedding below is a direct translation of that code.  The behaviour of
the operating system and of the worker process is an explicit input
(`WorkerBehavior`): which exit code (if any) `p.exitcode` shows after each
of the three joins, and what `pickle.load` on the temporary file produces.
Clock readings returned by `time.perf_counter()` are modelled as exact
integers (think nanosecond ticks); the claims under study concern which
readings the code subtracts, not floating-point rounding.  The `cprofile`
flag is not modelled: both branches of `fn2` run `fn` under the identical
`try/except Exception` and pickle the identical payload.
-/

/-- A Python value as it travels through the harness: `None`, an int, a
string, a bool, or an `Exception` instance carrying its type name and
message text. -/
inductive PyVal where
  | none
  | int (n : Int)
  | str (s : String)
  | bool (b : Bool)
  | exc (ty : String) (msg : String)
  deriving DecidableEq, Repr

/-- The Python test `isinstance(ret, Exception)`. -/
def PyVal.isException : PyVal → Bool
  | .exc _ _ => true
  | _ => false

/-- The Python value held by the variable `e` of `multiprocessing_run`:
an int (`0` on success, or the nonzero `p.exitcode`), `None` on timeout,
or the `Exception` raised by `pickle.load` (kept as its description
string). -/
inductive EVal where
  | int (n : Int)
  | none
  | exc (descr : String)
  deriving DecidableEq, Repr

/-- The Python value held by the variable `ee` of `multiprocessing_run`:
the int `0` (no error) or a descriptive string. -/
inductive EE where
  | zero
  | str (s : String)
  deriving DecidableEq, Repr

/-- What `fn()` does inside the worker: return a value or raise an
exception of some type with some message. -/
inductive FnOutcome where
  | ret (v : PyVal)
  | raise (ty : String) (msg : String)
  deriving DecidableEq, Repr

/-- The worker body `fn2` of `multiprocessing_run`: it runs `fn()` under
`try/except Exception`, so a raised exception becomes the ordinary value
`ret`, which is then pickled to the temporary file.  `fn2Payload` is the
value pickled; it is a total function, which embeds the fact that no
exception escapes `fn2` unhandled. -/
def fn2Payload : FnOutcome → PyVal
  | .ret v => v
  | .raise ty msg => .exc ty msg

/-- The environment of one `multiprocessing_run` invocation: what the
parent process observes of the worker at each step.  `joinExit` is
`p.exitcode` after `p.join(timeout)` (`Option.none` models Python `None`,
i.e. the worker is still alive: timeout).  `channel` is what
`pickle.load(temp_file)` yields on the completed path: a value, or the
description of the exception it raises (corrupted, empty or truncated
channel).  `termExit` and `killExit` are `p.exitcode` after
`p.terminate(); p.join(10)` and after `p.kill(); p.join(10)`
respectively; `Option.none` again means the worker is still alive. -/
structure WorkerBehavior where
  joinExit : Option Int
  channel : Except String PyVal
  termExit : Option Int
  killExit : Option Int
  deriving Repr

/-- The readings `time.perf_counter()` would give at the four events of
interest: just before `p.start()`, just after `p.join(timeout)` returns,
just after the post-terminate `p.join(10)` returns, and just after the
post-kill `p.join(10)` returns. -/
structure Clock where
  tBeforeStart : Int
  tAfterJoin : Int
  tAfterTerminateJoin : Int
  tAfterKillJoin : Int
  deriving DecidableEq, Repr

/-- The quadruple `(t, e, ret, ee)` returned by `multiprocessing_run`. -/
structure RunResult where
  t : Int
  e : EVal
  ret : PyVal
  ee : EE
  deriving DecidableEq, Repr

/-- The final `ee` computation of `multiprocessing_run`, a direct
transcription of

    if e is None: ee = 'Timeout'
    elif e != 0: ee = f'multiprocessing.Process failure \x7be=\x7d'
    elif isinstance(ret, Exception): ee = f'\x7btype(ret)\x7d: \x7bret\x7d'
    else: ee = 0

In Python, `e != 0` is true for every nonzero int and for every
`Exception` instance. -/
def computeEE (e : EVal) (ret : PyVal) : EE :=
  match e with
  | .none => .str "Timeout"
  | .exc d => .str ("multiprocessing.Process failure e=" ++ d)
  | .int n =>
      if n ≠ 0 then .str ("multiprocessing.Process failure e=" ++ toString n)
      else
        match ret with
        | .exc ty msg => .str (ty ++ ": " ++ msg)
        | _ => .zero

/-- The parent-side logic of `multiprocessing_run` in `main.py`.  The code

    t0 = time.perf_counter(); p.start(); p.join(timeout)
    t = time.perf_counter() - t0

computes `t` immediately after the first join, before any reclaim work.
When `p.exitcode is None` (timeout) it sets `e = None`, `ret = None` and
escalates `terminate` then `kill`, each followed by `p.join(10)`, and
raises when the worker survives both grace periods; otherwise it seeks to
the channel start, presets `e = 0`, `ret = None`, attempts
`ret = pickle.load(temp_file)` (on failure storing the exception in `e`),
and finally overwrites `e` with `p.exitcode` when that is nonzero.
`fnName` stands for `fn.__name__`; a raised exception is modelled as
`Except.error` carrying the exception message. -/
def multiprocessing_run (w : WorkerBehavior) (clk : Clock) (fnName : String) :
    Except String RunResult :=
  let t := clk.tAfterJoin - clk.tBeforeStart
  match w.joinExit with
  | Option.none =>
      match w.termExit with
      | some _ => Except.ok ⟨t, EVal.none, PyVal.none, computeEE EVal.none PyVal.none⟩
      | Option.none =>
          match w.killExit with
          | some _ => Except.ok ⟨t, EVal.none, PyVal.none, computeEE EVal.none PyVal.none⟩
          | Option.none =>
              Except.error ("Cannot terminate multiprocess running " ++ fnName)
  | some code =>
      let er : EVal × PyVal :=
        match w.channel with
        | .ok v => (EVal.int 0, v)
        | .error d => (EVal.exc d, PyVal.none)
      let e := if code ≠ 0 then EVal.int code else er.1
      Except.ok ⟨t, e, er.2, computeEE e er.2⟩

/-- A worker run in which `fn2` ran to completion: `fn2` converts a raised
exception into a value, pickles the payload and flushes, so the process
exits with code 0 and `pickle.load` in the parent returns exactly the
pickled payload (the serialize/deserialize round trip through the
temporary file is lossless for picklable values).  The terminate/kill
observations are irrelevant on this path. -/
def normalCompletion (o : FnOutcome) : WorkerBehavior :=
  ⟨some 0, Except.ok (fn2Payload o), Option.none, Option.none⟩

/-- The Python value stored by the `performance` loop under the key `e` of
a report entry: the loop stores the convenience field `ee`, whose Python
value is the int `0` or a string. -/
def EE.toPyVal : EE → PyVal
  | .zero => .int 0
  | .str s => .str s

/-- One entry of `results['data']` in the `performance` loop of `main.py`,
as built from the quadruple returned by `multiprocessing_run`. -/
structure DataEntry where
  testname : String
  path : String
  toolname : String
  t : Int
  e : PyVal
  deriving DecidableEq, Repr

/-- The record appended to `results['data']` by one iteration of the
`performance` loop: `dict(testname=testname, path=..., toolname=toolname,
t=t, e=ee)` — note the source stores `ee`, not the status `e`, under the
key `e`. -/
def performanceEntry (testname path toolname : String) (r : RunResult) : DataEntry :=
  ⟨testname, path, toolname, r.t, r.ee.toPyVal⟩

/-! ### Closed-form evaluation lemmas, one per control path -/

/-- Timeout reclaimed by `terminate`. -/
theorem run_timeout_term (ch : Except String PyVal) (c : Int) (ke : Option Int)
    (clk : Clock) (fnName : String) :
    multiprocessing_run ⟨Option.none, ch, some c, ke⟩ clk fnName
      = Except.ok ⟨clk.tAfterJoin - clk.tBeforeStart, EVal.none, PyVal.none,
          EE.str "Timeout"⟩ := rfl

/-- Timeout reclaimed only by `kill`. -/
theorem run_timeout_kill (ch : Except String PyVal) (c : Int)
    (clk : Clock) (fnName : String) :
    multiprocessing_run ⟨Option.none, ch, Option.none, some c⟩ clk fnName
      = Except.ok ⟨clk.tAfterJoin - clk.tBeforeStart, EVal.none, PyVal.none,
          EE.str "Timeout"⟩ := rfl

/-- Timeout where the worker survives both terminate and kill. -/
theorem run_timeout_raise (ch : Except String PyVal) (clk : Clock) (fnName : String) :
    multiprocessing_run ⟨Option.none, ch, Option.none, Option.none⟩ clk fnName
      = Except.error ("Cannot terminate multiprocess running " ++ fnName) := rfl

/-- Clean exit, channel deserializes. -/
theorem run_zero_ok (v : PyVal) (te ke : Option Int) (clk : Clock) (fnName : String) :
    multiprocessing_run ⟨some 0, Except.ok v, te, ke⟩ clk fnName
      = Except.ok ⟨clk.tAfterJoin - clk.tBeforeStart, EVal.int 0, v,
          computeEE (EVal.int 0) v⟩ := rfl

/-- Clean exit, channel fails to deserialize. -/
theorem run_zero_err (d : String) (te ke : Option Int) (clk : Clock) (fnName : String) :
    multiprocessing_run ⟨some 0, Except.error d, te, ke⟩ clk fnName
      = Except.ok ⟨clk.tAfterJoin - clk.tBeforeStart, EVal.exc d, PyVal.none,
          EE.str ("multiprocessing.Process failure e=" ++ d)⟩ := rfl

/-- Nonzero exit, channel deserializes: the exit code overwrites `e`, but
`ret` keeps the deserialized value. -/
theorem run_nonzero_ok (c : Int) (hc : c ≠ 0) (v : PyVal) (te ke : Option Int)
    (clk : Clock) (fnName : String) :
    multiprocessing_run ⟨some c, Except.ok v, te, ke⟩ clk fnName
      = Except.ok ⟨clk.tAfterJoin - clk.tBeforeStart, EVal.int c, v,
          EE.str ("multiprocessing.Process failure e=" ++ toString c)⟩ := by
  simp [multiprocessing_run, computeEE, hc]

/-- Nonzero exit, channel fails to deserialize: the exit code overwrites
the deserialization exception. -/
theorem run_nonzero_err (c : Int) (hc : c ≠ 0) (d : String) (te ke : Option Int)
    (clk : Clock) (fnName : String) :
    multiprocessing_run ⟨some c, Except.error d, te, ke⟩ clk fnName
      = Except.ok ⟨clk.tAfterJoin - clk.tBeforeStart, EVal.int c, PyVal.none,
          EE.str ("multiprocessing.Process failure e=" ++ toString c)⟩ := by
  simp [multiprocessing_run, computeEE, hc]

/-- Structural facts holding of every returned result: the elapsed time is
the join-to-start difference, `ee` is the final classification of
`(e, ret)`, and a timeout return implies the timeout field values together
with an observed dead worker. -/
theorem run_ok_spec (w : WorkerBehavior) (clk : Clock) (fnName : String)
    (r : RunResult) (h : multiprocessing_run w clk fnName = Except.ok r) :
    r.t = clk.tAfterJoin - clk.tBeforeStart ∧
    r.ee = computeEE r.e r.ret ∧
    (w.joinExit = Option.none →
      r.e = EVal.none ∧ r.ret = PyVal.none ∧
        (w.termExit.isSome ∨ w.killExit.isSome)) := by
  obtain ⟨je, ch, te, ke⟩ := w
  cases je with
  | none =>
      cases te with
      | some c =>
          rw [run_timeout_term] at h
          injection h with h2
          subst h2
          simp [computeEE]
      | none =>
          cases ke with
          | some c =>
              rw [run_timeout_kill] at h
              injection h with h2
              subst h2
              simp [computeEE]
          | none =>
              rw [run_timeout_raise] at h
              exact absurd h (by simp)
  | some c =>
      by_cases hc : c = 0
      · subst hc
        cases ch with
        | ok v =>
            rw [run_zero_ok] at h
            injection h with h2
            subst h2
            simp
        | error d =>
            rw [run_zero_err] at h
            injection h with h2
            subst h2
            simp [computeEE]
      · cases ch with
        | ok v =>
            rw [run_nonzero_ok c hc] at h
            injection h with h2
            subst h2
            simp [computeEE, hc]
        | error d =>
            rw [run_nonzero_err c hc] at h
            injection h with h2
            subst h2
            simp [computeEE, hc]

/-- Helper: a string with the fixed process-failure text as a prefix is
never empty. -/
theorem failure_string_ne_empty (d : String) :
    ("multiprocessing.Process failure e=" ++ d) ≠ "" := by
  intro hcontra
  have hlen := congrArg String.length hcontra
  simp [String.length_append] at hlen
  exact absurd hlen.1 (by decide)

/-- Helper: the exception summary `type: message` is never empty. -/
theorem exc_string_ne_empty (ty msg : String) : (ty ++ ": " ++ msg) ≠ "" := by
  intro hcontra
  have hlen := congrArg String.length hcontra
  simp [String.length_append] at hlen
  exact absurd hlen.1.2 (by decide)

/-- Helper: `computeEE` yields the no-error sentinel exactly on a zero
status with a non-exception value. -/
theorem computeEE_zero_iff (e : EVal) (ret : PyVal) :
    computeEE e ret = EE.zero ↔ (e = EVal.int 0 ∧ ret.isException = false) := by
  cases e with
  | none => simp [computeEE]
  | exc d => simp [computeEE]
  | int n =>
      by_cases hn : n = 0
      · subst hn
        cases ret <;> simp [computeEE, PyVal.isException]
      · simp [computeEE, hn]

/-- Helper: `computeEE` is either the sentinel or a non-empty string. -/
theorem computeEE_cases (e : EVal) (ret : PyVal) :
    computeEE e ret = EE.zero ∨
      ∃ s, computeEE e ret = EE.str s ∧ s ≠ "" := by
  cases e with
  | none => exact Or.inr ⟨"Timeout", rfl, by decide⟩
  | exc d =>
      exact Or.inr ⟨"multiprocessing.Process failure e=" ++ d, rfl,
        failure_string_ne_empty d⟩
  | int n =>
      by_cases hn : n = 0
      · subst hn
        cases ret with
        | exc ty msg =>
            exact Or.inr ⟨ty ++ ": " ++ msg, by simp [computeEE],
              exc_string_ne_empty ty msg⟩
        | none => exact Or.inl (by simp [computeEE])
        | int m => exact Or.inl (by simp [computeEE])
        | str s => exact Or.inl (by simp [computeEE])
        | bool b => exact Or.inl (by simp [computeEE])
      · exact Or.inr ⟨"multiprocessing.Process failure e=" ++ toString n,
          by simp [computeEE, hn], failure_string_ne_empty _⟩

/-! ### The claims -/

/-- C1 counterexample.  Concrete timeout scenario: the worker is still
alive at the first join (clock reading 300, started at 0) and is reclaimed
by `terminate`, the post-terminate join ending at reading 310, so the
worker lifecycle concludes at 310 and the full spawn-to-reap span is
310 - 0.  The code nonetheless reports `t = 300`: the terminate grace
period is not included, refuting the claim that on a timeout the reported
`t` covers the full spawn-to-reap span. -/
theorem C1_counterexample :
    multiprocessing_run
        ⟨Option.none, Except.ok PyVal.none, some (-15), Option.none⟩
        ⟨0, 300, 310, 320⟩ "do_render_pymupdf"
      = Except.ok ⟨300, EVal.none, PyVal.none, EE.str "Timeout"⟩
    ∧ (300 : Int) ≠ 310 - 0 := ⟨rfl, by decide⟩

/-- C1 (amended): the reported elapsed time always equals
`tAfterJoin - tBeforeStart`: the start timestamp is taken immediately
before spawning and the end timestamp immediately after the initial
`p.join(timeout)` returns, so on a timeout the terminate/kill grace
periods are not part of `t`. -/
theorem C1_elapsed_is_spawn_to_join (w : WorkerBehavior) (clk : Clock)
    (fnName : String) (r : RunResult)
    (h : multiprocessing_run w clk fnName = Except.ok r) :
    r.t = clk.tAfterJoin - clk.tBeforeStart :=
  (run_ok_spec w clk fnName r h).1

/-- C1 witness: the amended theorem at a concrete successful run. -/
theorem C1_witness :
    RunResult.t ⟨7, EVal.int 0, PyVal.int 1, EE.zero⟩ = 9 - 2 :=
  C1_elapsed_is_spawn_to_join
    ⟨some 0, Except.ok (PyVal.int 1), Option.none, Option.none⟩
    ⟨2, 9, 9, 9⟩ "f" ⟨7, EVal.int 0, PyVal.int 1, EE.zero⟩ rfl

/-- C2: whenever `multiprocessing_run` returns, the convenience field `ee`
is the no-error sentinel `0` exactly when `e = 0` and `ret` is not an
`Exception` instance; in every other case `ee` is a non-empty descriptive
string. -/
theorem C2_ee_iff_success (w : WorkerBehavior) (clk : Clock) (fnName : String)
    (r : RunResult) (h : multiprocessing_run w clk fnName = Except.ok r) :
    (r.ee = EE.zero ↔ (r.e = EVal.int 0 ∧ r.ret.isException = false)) ∧
    (r.ee = EE.zero ∨ ∃ s, r.ee = EE.str s ∧ s ≠ "") := by
  have hEE := (run_ok_spec w clk fnName r h).2.1
  rw [hEE]
  exact ⟨computeEE_zero_iff r.e r.ret, computeEE_cases r.e r.ret⟩

/-- C2 witness: the invariant at a concrete successful run. -/
theorem C2_witness :
    (EE.zero = EE.zero ↔
      (EVal.int 0 = EVal.int 0 ∧ PyVal.isException (PyVal.int 1) = false)) ∧
    (EE.zero = EE.zero ∨ ∃ s, EE.zero = EE.str s ∧ s ≠ "") :=
  C2_ee_iff_success ⟨some 0, Except.ok (PyVal.int 1), Option.none, Option.none⟩
    ⟨0, 1, 1, 1⟩ "f" ⟨1, EVal.int 0, PyVal.int 1, EE.zero⟩ rfl

/-- C3: a unit of work that does not finish within the timeout yields
`e = None`, `ret = None`, `ee = 'Timeout'`, and by the time
`multiprocessing_run` returns the worker has been observed dead (a
non-`None` exit code after terminate or after kill). -/
theorem C3_timeout_outcome (w : WorkerBehavior) (clk : Clock) (fnName : String)
    (r : RunResult) (hj : w.joinExit = Option.none)
    (h : multiprocessing_run w clk fnName = Except.ok r) :
    r.e = EVal.none ∧ r.ret = PyVal.none ∧ r.ee = EE.str "Timeout" ∧
    (w.termExit.isSome ∨ w.killExit.isSome) := by
  obtain ⟨he, hret, halive⟩ := (run_ok_spec w clk fnName r h).2.2 hj
  have hEE := (run_ok_spec w clk fnName r h).2.1
  rw [he, hret] at hEE
  exact ⟨he, hret, hEE, halive⟩

/-- C3 witness: a concrete timeout reclaimed by `terminate`. -/
theorem C3_witness :
    EVal.none = EVal.none ∧ PyVal.none = PyVal.none ∧
    EE.str "Timeout" = EE.str "Timeout" ∧
    ((some (-15) : Option Int).isSome ∨ (Option.none : Option Int).isSome) :=
  C3_timeout_outcome ⟨Option.none, Except.ok PyVal.none, some (-15), Option.none⟩
    ⟨1, 4, 5, 6⟩ "do_text_pymupdf" ⟨3, EVal.none, PyVal.none, EE.str "Timeout"⟩
    rfl rfl

/-- C4: a unit of work that raises an exception `E` has `E` captured
inside the worker by `fn2` (the payload function is total, so nothing
escapes the worker), `multiprocessing_run` returns normally (no
`Except.error`) with `ret` equal to the captured exception object and `ee`
the string built from `E`'s type and message. -/
theorem C4_exception_captured (ty msg : String) (clk : Clock) (fnName : String) :
    fn2Payload (FnOutcome.raise ty msg) = PyVal.exc ty msg ∧
    multiprocessing_run (normalCompletion (FnOutcome.raise ty msg)) clk fnName
      = Except.ok ⟨clk.tAfterJoin - clk.tBeforeStart, EVal.int 0,
          PyVal.exc ty msg, EE.str (ty ++ ": " ++ msg)⟩ :=
  ⟨rfl, rfl⟩

/-- C5 (code bug): the `performance` loop stores `ee` under the report key
`e`.  Evaluated at a run that times out, the appended entry carries the
string `'Timeout'` in its `e` field — never the `None` that the module
docstring and the spec promise for a timeout, and likewise a worker
failure yields a descriptive string rather than a nonzero numeric exit
code. -/
theorem C5_report_entry_divergence :
    (multiprocessing_run
        ⟨Option.none, Except.ok PyVal.none, some (-15), Option.none⟩
        ⟨0, 301, 311, 321⟩ "do_copy_pymupdf"
      = Except.ok ⟨301, EVal.none, PyVal.none, EE.str "Timeout"⟩)
    ∧ performanceEntry "copy" "in.pdf" "pymupdf"
        ⟨301, EVal.none, PyVal.none, EE.str "Timeout"⟩
      = ⟨"copy", "in.pdf", "pymupdf", 301, PyVal.str "Timeout"⟩
    ∧ PyVal.str "Timeout" ≠ PyVal.none
    ∧ performanceEntry "copy" "in.pdf" "pymupdf"
        ⟨5, EVal.int 3, PyVal.none,
          EE.str "multiprocessing.Process failure e=3"⟩
      = ⟨"copy", "in.pdf", "pymupdf", 5,
          PyVal.str "multiprocessing.Process failure e=3"⟩
    ∧ (∀ n : Int, PyVal.str "multiprocessing.Process failure e=3" ≠ PyVal.int n) :=
  ⟨rfl, rfl, by decide, rfl, fun n => by simp⟩

/-- C6 counterexample.  A worker killed by a signal after it had already
written and flushed its payload: exit code -15 with a deserializable
channel holding 42.  `multiprocessing_run` returns `ret = 42`, not the
`None` the claim demands for the worker-failure outcome. -/
theorem C6_counterexample :
    multiprocessing_run
        ⟨some (-15), Except.ok (PyVal.int 42), Option.none, Option.none⟩
        ⟨0, 5, 5, 5⟩ "do_render_pymupdf"
      = Except.ok ⟨5, EVal.int (-15), PyVal.int 42,
          EE.str ("multiprocessing.Process failure e=" ++ toString (-15 : Int))⟩
    ∧ PyVal.int 42 ≠ PyVal.none :=
  ⟨run_nonzero_ok (-15) (by decide) (PyVal.int 42) Option.none Option.none
      ⟨0, 5, 5, 5⟩ "do_render_pymupdf",
    by decide⟩

/-- C6 (amended): when the worker completes within the timeout with a
nonzero exit code, `e` is that exit code and `ee` identifies it; `ret` is
`None` when the result channel fails to deserialize, and otherwise the
deserialized channel value (the code does not reset `ret` after a
successful `pickle.load`). -/
theorem C6_worker_failure (w : WorkerBehavior) (clk : Clock) (fnName : String)
    (c : Int) (hj : w.joinExit = some c) (hc : c ≠ 0) :
    multiprocessing_run w clk fnName
      = Except.ok ⟨clk.tAfterJoin - clk.tBeforeStart, EVal.int c,
          (match w.channel with
            | Except.ok v => v
            | Except.error _ => PyVal.none),
          EE.str ("multiprocessing.Process failure e=" ++ toString c)⟩ := by
  obtain ⟨je, ch, te, ke⟩ := w
  simp only at hj
  subst hj
  cases ch with
  | ok v => exact run_nonzero_ok c hc v te ke clk fnName
  | error d => exact run_nonzero_err c hc d te ke clk fnName

/-- C6 witness: the amended theorem at a concrete nonzero exit with a
failed deserialization. -/
theorem C6_witness :
    multiprocessing_run ⟨some 3, Except.error "EOFError", Option.none, Option.none⟩
        ⟨0, 2, 2, 2⟩ "do_copy_pymupdf"
      = Except.ok ⟨2 - 0, EVal.int 3,
          (match (Except.error "EOFError" : Except String PyVal) with
            | Except.ok v => v
            | Except.error _ => PyVal.none),
          EE.str ("multiprocessing.Process failure e=" ++ toString (3 : Int))⟩ :=
  C6_worker_failure ⟨some 3, Except.error "EOFError", Option.none, Option.none⟩
    ⟨0, 2, 2, 2⟩ "do_copy_pymupdf" 3 rfl (by decide)

/-- C7: a clean (exit code 0) worker whose result channel cannot be
deserialized yields a normal return (no crash) with `e` the
deserialization exception, `ret = None`, and `ee` a string carrying the
deserialization failure's description. -/
theorem C7_deserialize_error (w : WorkerBehavior) (clk : Clock) (fnName : String)
    (d : String) (hj : w.joinExit = some 0) (hch : w.channel = Except.error d) :
    multiprocessing_run w clk fnName
      = Except.ok ⟨clk.tAfterJoin - clk.tBeforeStart, EVal.exc d, PyVal.none,
          EE.str ("multiprocessing.Process failure e=" ++ d)⟩ := by
  obtain ⟨je, ch, te, ke⟩ := w
  simp only at hj hch
  subst hj
  subst hch
  exact run_zero_err d te ke clk fnName

/-- C7 witness: concrete truncated channel. -/
theorem C7_witness :
    multiprocessing_run
        ⟨some 0, Except.error "EOFError: Ran out of input", Option.none, Option.none⟩
        ⟨0, 4, 4, 4⟩ "get_version_pymupdf"
      = Except.ok ⟨4 - 0, EVal.exc "EOFError: Ran out of input", PyVal.none,
          EE.str ("multiprocessing.Process failure e="
            ++ "EOFError: Ran out of input")⟩ :=
  C7_deserialize_error
    ⟨some 0, Except.error "EOFError: Ran out of input", Option.none, Option.none⟩
    ⟨0, 4, 4, 4⟩ "get_version_pymupdf" "EOFError: Ran out of input" rfl rfl

/-- C8: on a timeout, if the worker is still alive after both the
terminate grace period and the kill grace period, `multiprocessing_run`
raises an error whose message names the unit of work; in every other
timeout case it returns an outcome record normally. -/
theorem C8_unreclaimed_worker_raises (w : WorkerBehavior) (clk : Clock)
    (fnName : String) (hj : w.joinExit = Option.none) :
    (w.termExit = Option.none → w.killExit = Option.none →
      multiprocessing_run w clk fnName
        = Except.error ("Cannot terminate multiprocess running " ++ fnName)) ∧
    (w.termExit.isSome ∨ w.killExit.isSome →
      ∃ r, multiprocessing_run w clk fnName = Except.ok r) := by
  obtain ⟨je, ch, te, ke⟩ := w
  simp only at hj
  subst hj
  constructor
  · intro hte hke
    simp only at hte hke
    subst hte
    subst hke
    exact run_timeout_raise ch clk fnName
  · intro halive
    cases te with
    | some c => exact ⟨_, run_timeout_term ch c ke clk fnName⟩
    | none =>
        cases ke with
        | some c => exact ⟨_, run_timeout_kill ch c clk fnName⟩
        | none => simp at halive

/-- C8 witness: a concrete worker surviving both grace periods makes the
harness raise, and the message names the unit of work. -/
theorem C8_witness :
    multiprocessing_run
        ⟨Option.none, Except.ok PyVal.none, Option.none, Option.none⟩
        ⟨0, 300, 310, 320⟩ "do_render_mutool"
      = Except.error ("Cannot terminate multiprocess running " ++ "do_render_mutool") :=
  (C8_unreclaimed_worker_raises
      ⟨Option.none, Except.ok PyVal.none, Option.none, Option.none⟩
      ⟨0, 300, 310, 320⟩ "do_render_mutool" rfl).1 rfl rfl

/-- C9: a unit of work returning a plain (non-exception) picklable value
`v`, whose worker completes cleanly within the timeout, round-trips `v`
losslessly through the result channel: `ret = v`, `e = 0`, `ee = 0`. -/
theorem C9_roundtrip_lossless (v : PyVal) (clk : Clock) (fnName : String)
    (hv : v.isException = false) :
    multiprocessing_run (normalCompletion (FnOutcome.ret v)) clk fnName
      = Except.ok ⟨clk.tAfterJoin - clk.tBeforeStart, EVal.int 0, v, EE.zero⟩ := by
  cases v with
  | exc ty msg => simp [PyVal.isException] at hv
  | none => rfl
  | int n => rfl
  | str s => rfl
  | bool b => rfl

/-- C9 witness: a concrete plain value round-trips. -/
theorem C9_witness :
    multiprocessing_run (normalCompletion (FnOutcome.ret (PyVal.int 42)))
        ⟨0, 8, 8, 8⟩ "do_text_pymupdf"
      = Except.ok ⟨8 - 0, EVal.int 0, PyVal.int 42, EE.zero⟩ :=
  C9_roundtrip_lossless (PyVal.int 42) ⟨0, 8, 8, 8⟩ "do_text_pymupdf" rfl

/-- C10: when the worker exits nonzero and the channel also fails to
deserialize, the returned status is the exit code — the deserialization
exception that was briefly stored in `e` is overwritten and discarded —
and `ee` identifies the process failure by the exit code, not by the
deserialization error. -/
theorem C10_exitcode_overrides_deserialize (w : WorkerBehavior) (clk : Clock)
    (fnName : String) (c : Int) (d : String)
    (hj : w.joinExit = some c) (hc : c ≠ 0) (hch : w.channel = Except.error d) :
    multiprocessing_run w clk fnName
      = Except.ok ⟨clk.tAfterJoin - clk.tBeforeStart, EVal.int c, PyVal.none,
          EE.str ("multiprocessing.Process failure e=" ++ toString c)⟩
    ∧ EVal.int c ≠ EVal.exc d := by
  obtain ⟨je, ch, te, ke⟩ := w
  simp only at hj hch
  subst hj
  subst hch
  exact ⟨run_nonzero_err c hc d te ke clk fnName, by simp⟩

/-- C10 witness: concrete nonzero exit with corrupt channel. -/
theorem C10_witness :
    (multiprocessing_run
        ⟨some 9, Except.error "UnpicklingError", Option.none, Option.none⟩
        ⟨0, 6, 6, 6⟩ "do_render_pdfium"
      = Except.ok ⟨6 - 0, EVal.int 9, PyVal.none,
          EE.str ("multiprocessing.Process failure e=" ++ toString (9 : Int))⟩)
    ∧ EVal.int 9 ≠ EVal.exc "UnpicklingError" :=
  C10_exitcode_overrides_deserialize
    ⟨some 9, Except.error "UnpicklingError", Option.none, Option.none⟩
    ⟨0, 6, 6, 6⟩ "do_render_pdfium" 9 "UnpicklingError" rfl (by decide) rfl
